import Mathlib

/-!
Shallow embedding of `src/dbt/handler.py` from the dbt-lambda-starter
repository, together with theorems about its behaviour.

The module-level state of the Python file (the process environment read
via `os.getenv` and the precomputed `default_args` list) is modelled
explicitly.  External effects are modelled by oracles: `subprocess.run`
is a function from the command token list to an exit code (or a raised
exception), and `dbt.invoke` is a function from the argument list to a
success flag.  Python functions that may raise are translated to
`Except String`-valued functions; `print` calls become entries of a log
list, and attempted subprocess transfers are recorded in a command
trace.
-/

namespace DbtLambda

/-- The process environment: a map from variable names to an optional
value, as read by `os.getenv`. -/
def Env : Type := String → Option String

/-- Python `os.getenv(key, default)`: the value when the variable is
set, the default otherwise. -/
def getenv (env : Env) (key default : String) : String :=
  (env key).getD default

/-- Python truthiness of an optional string: `None` and the empty
string are falsy, every other string is truthy.  This is the test
performed by `if not dbt_state_bucket:` in the source. -/
def pyTruthy : Option String → Bool
  | none => false
  | some s => !(s == "")

/-- Outcome of a `subprocess.run` call with `check=False`: either a
completed process with an exit code, stdout and stderr, or a raised
exception carrying a message. -/
inductive SubResult
  | exit (code : Int) (stdout : String) (stderr : String)
  | raiseExc (msg : String)

/-- Oracle for `subprocess.run`: maps the command token list to its
outcome. -/
def Sub : Type := List String → SubResult

/-- Observable effects of one of the S3 sync helpers: the subprocess
commands it attempted, in order, and the lines it printed. -/
structure SyncTrace where
  commands : List (List String)
  logs : List String
deriving DecidableEq

/-- The module-level `default_args` list from the source, built once
at module load time from the process environment:

`["--target", "dev", "--log-path", "/tmp/logs", "--target-path",
"/tmp/target", "--target", os.getenv("ENVIRONMENT", "dev"),
"--profiles-dir", "."]`. -/
def default_args (env : Env) : List String :=
  ["--target", "dev",
   "--log-path", "/tmp/logs",
   "--target-path", "/tmp/target",
   "--target", getenv env "ENVIRONMENT" "dev",
   "--profiles-dir", "."]

/-- Embedding of `restore_target_from_s3`.  Returns `.ok trace` when
the Python function returns normally and `.error msg` when an
exception would propagate to its caller.  The `try`/`except Exception`
block of the source is translated by mapping a raising subprocess call
to the caught branch. -/
def restore_target_from_s3 (env : Env) (run : Sub) : Except String SyncTrace :=
  let dbt_state_bucket := env "DBT_STATE_BUCKET"
  let environment := getenv env "ENVIRONMENT" "dev"
  if pyTruthy dbt_state_bucket = false then
    .ok ⟨[], ["INFO: DBT_STATE_BUCKET not set. Starting with clean state."]⟩
  else
    let s3_path := "s3://" ++ dbt_state_bucket.getD "" ++ "/" ++ environment ++ "/target/"
    let cmd := ["aws", "s3", "sync", s3_path, "/tmp/target-base", "--quiet"]
    let restoring := "Restoring previous dbt state from " ++ s3_path
    match run cmd with
    | .exit code _ _ =>
        if code = 0 then
          .ok ⟨[cmd], [restoring, "✓ Successfully restored previous state to /tmp/target-base"]⟩
        else
          .ok ⟨[cmd], [restoring, "INFO: No previous state found in S3 (first run or empty bucket)"]⟩
    | .raiseExc e =>
        .ok ⟨[cmd], [restoring, "INFO: Failed to restore state from S3: " ++ e]⟩

/-- Embedding of `sync_target_to_s3`.  Returns `.ok trace` when the
Python function returns normally and `.error msg` when an exception
would propagate to its caller.  The `try`/`except Exception` block of
the source is translated by mapping a raising subprocess call to the
caught branch. -/
def sync_target_to_s3 (env : Env) (run : Sub) : Except String SyncTrace :=
  let dbt_state_bucket := env "DBT_STATE_BUCKET"
  let environment := getenv env "ENVIRONMENT" "dev"
  if pyTruthy dbt_state_bucket = false then
    .ok ⟨[], ["WARNING: DBT_STATE_BUCKET not set. Skipping state sync."]⟩
  else
    let s3_path := "s3://" ++ dbt_state_bucket.getD "" ++ "/" ++ environment ++ "/target/"
    let cmd := ["aws", "s3", "sync", "/tmp/target", s3_path, "--delete", "--quiet"]
    let syncing := "Syncing dbt target to " ++ s3_path
    match run cmd with
    | .exit code out err =>
        if code = 0 then
          .ok ⟨[cmd], [syncing, "✓ Successfully synced dbt target to " ++ s3_path]⟩
        else
          .ok ⟨[cmd], [syncing, "WARNING: Failed to sync target to S3",
                       "stdout: " ++ out, "stderr: " ++ err]⟩
    | .raiseExc e =>
        .ok ⟨[cmd], [syncing, "ERROR: Failed to sync target to S3: " ++ e]⟩

/-- An invocation event: the optional `command` and `cli_args` entries
of the JSON event dictionary.  `none` models an absent key; `some xs`
models a present key, possibly bound to an empty list. -/
structure Event where
  command : Option (List String)
  cli_args : Option (List String)

/-- The module state of the Python file at handler time: the process
environment and the `default_args` list computed at import. -/
structure ModuleState where
  env : Env
  defaultArgs : List String

/-- Module initialisation: `default_args` is computed once from the
environment when the module is imported. -/
def moduleInit (env : Env) : ModuleState :=
  ⟨env, default_args env⟩

/-- The dictionary returned by a successful handler invocation:
`{"statusCode": ..., "body": ...}`. -/
structure HandlerResult where
  statusCode : Nat
  body : String
deriving DecidableEq

/-- Observable effects of one handler invocation: the argument lists
passed to `dbt.invoke`, the subprocess transfer commands attempted, and
the lines printed. -/
structure HandlerTrace where
  invokeArgs : List (List String)
  syncCommands : List (List String)
  logs : List String
deriving DecidableEq

/-- Python `event.get("command", ["build"])`. -/
def commandOf (ev : Event) : List String :=
  ev.command.getD ["build"]

/-- Python `event.get("cli_args", ["--select", "+my_second_dbt_model"])`. -/
def cliArgsOf (ev : Event) : List String :=
  ev.cli_args.getD ["--select", "+my_second_dbt_model"]

/-- The argument list handed to `dbt.invoke`:
`command + default_args + cli_args`. -/
def argsOf (st : ModuleState) (ev : Event) : List String :=
  commandOf ev ++ st.defaultArgs ++ cliArgsOf ev

/-- Embedding of `handler`.  `invoke` is the oracle for `dbt.invoke`,
mapping the argument list to the success flag of the run result.
Returns the module state after the call, the trace of effects, and
either the returned dictionary or the message of the raised exception.
The calls to `restore_target_from_s3()` and `sync_target_to_s3()` are
commented out in the source, so the body attempts no transfer; the
handler still prints `Uploading state to S3...` on success. -/
def handler (st : ModuleState) (ev : Event) (invoke : List String → Bool) :
    ModuleState × HandlerTrace × Except String HandlerResult :=
  let command := commandOf ev
  let cli_args := cliArgsOf ev
  let runningLog :=
    "Running dbt " ++ String.intercalate " " command ++ " " ++ String.intercalate " " cli_args
  let args := command ++ st.defaultArgs ++ cli_args
  let success := invoke args
  if success then
    (st,
     ⟨[args], [],
      [runningLog, "✓ DBT build succeeded", "Uploading state to S3..."]⟩,
     .ok ⟨if success then 200 else 500, "DBT build completed"⟩)
  else
    (st,
     ⟨[args], [],
      [runningLog, "✗ DBT build failed"]⟩,
     .error "DBT build failed")

/-!
Mock synchronisation primitives installed by `patch_multiprocessing`.
Each shim wraps a single-process `threading` primitive; we model the
state of that primitive for sequential executions in a single-process
context.  `Option` results model operations that do not return
normally: `none` is a blocked acquisition or a raised error, depending
on the operation, as noted on each definition.  Constructors take the
extra positional arguments (`*args`, the inter-process parameters such
as a context object) as an ignored list.
-/

/-- State of `MockRLock`: the wrapped `threading.RLock`, which in a
single-threaded execution is just its recursion count. -/
structure MockRLock where
  count : Nat
deriving DecidableEq

/-- `MockRLock.__init__`: accepts any arguments and ignores them,
creating an unowned reentrant lock. -/
def MockRLock.new (_args : List String) : MockRLock := ⟨0⟩

/-- `MockRLock.acquire` (also `__enter__`): in a single-threaded
execution a reentrant lock is always acquirable; the count goes up and
the call returns `True`. -/
def MockRLock.acquire (l : MockRLock) : MockRLock × Bool :=
  (⟨l.count + 1⟩, true)

/-- `MockRLock.release` (also `__exit__`): `none` models the
`RuntimeError` raised when releasing an unowned `threading.RLock`. -/
def MockRLock.release (l : MockRLock) : Option MockRLock :=
  if l.count = 0 then none else some ⟨l.count - 1⟩

/-- The shimmed ownership check: the source returns `True`
unconditionally. -/
def MockRLock.is_owned (_ : MockRLock) : Bool := true

/-- State of `MockLock`: the wrapped `threading.Lock`. -/
structure MockLock where
  locked : Bool
deriving DecidableEq

/-- `MockLock.__init__`: accepts any arguments and ignores them,
creating an unlocked lock. -/
def MockLock.new (_args : List String) : MockLock := ⟨false⟩

/-- `MockLock.acquire` (also `__enter__`): `none` models blocking on a
lock that is already held. -/
def MockLock.acquire (l : MockLock) : Option (MockLock × Bool) :=
  if l.locked then none else some (⟨true⟩, true)

/-- `MockLock.release` (also `__exit__`): `none` models the
`RuntimeError` raised when releasing an unlocked `threading.Lock`. -/
def MockLock.release (l : MockLock) : Option MockLock :=
  if l.locked then some ⟨false⟩ else none

/-- State of `MockSemaphore`: the counter of the wrapped
`threading.Semaphore`. -/
structure MockSemaphore where
  value : Nat
deriving DecidableEq

/-- `MockSemaphore.__init__(value=1, *args, **kwargs)`: the counter is
initialised to `value` (default 1) and the inter-process arguments are
ignored. -/
def MockSemaphore.new (value : Nat) (_args : List String) : MockSemaphore :=
  ⟨value⟩

/-- `MockSemaphore.acquire` (also `__enter__`): `none` models blocking
on a zero counter. -/
def MockSemaphore.acquire (s : MockSemaphore) : Option (MockSemaphore × Bool) :=
  if s.value = 0 then none else some (⟨s.value - 1⟩, true)

/-- `MockSemaphore.release` (also `__exit__`): a plain
`threading.Semaphore` may be released without bound. -/
def MockSemaphore.release (s : MockSemaphore) : MockSemaphore :=
  ⟨s.value + 1⟩

/-- State of `MockBoundedSemaphore`: the counter and the initial value
of the wrapped `threading.BoundedSemaphore`. -/
structure MockBoundedSemaphore where
  value : Nat
  initial : Nat
deriving DecidableEq

/-- `MockBoundedSemaphore.__init__(value=1, *args, **kwargs)`: counter
and bound are initialised to `value` (default 1) and the inter-process
arguments are ignored. -/
def MockBoundedSemaphore.new (value : Nat) (_args : List String) : MockBoundedSemaphore :=
  ⟨value, value⟩

/-- `MockBoundedSemaphore.acquire` (also `__enter__`): `none` models
blocking on a zero counter. -/
def MockBoundedSemaphore.acquire (s : MockBoundedSemaphore) :
    Option (MockBoundedSemaphore × Bool) :=
  if s.value = 0 then none else some (⟨s.value - 1, s.initial⟩, true)

/-- `MockBoundedSemaphore.release` (also `__exit__`): `none` models the
`ValueError` raised when releasing past the initial value. -/
def MockBoundedSemaphore.release (s : MockBoundedSemaphore) :
    Option MockBoundedSemaphore :=
  if s.value = s.initial then none else some ⟨s.value + 1, s.initial⟩

/-- An environment with no variables set. -/
def envNone : Env := fun _ => none

/-- An environment in which only `DBT_STATE_BUCKET` is set, to the
bucket name `my-bucket`. -/
def envBucket : Env := fun k =>
  if k == "DBT_STATE_BUCKET" then some "my-bucket" else none

/-- A subprocess oracle whose every call exits with code 0. -/
def runZero : Sub := fun _ => .exit 0 "" ""

/-- C1: with a bucket configured and a successful tool run, the handler
attempts no outbound transfer at all: the calls to the persist helper
are commented out in the source, even though the handler still prints
`Uploading state to S3...` and its docstring promises the sync.  The
invocation returns the 200 result with zero transfer commands in its
trace. -/
theorem c1_success_with_bucket_attempts_no_transfer :
    (handler (moduleInit envBucket) ⟨none, none⟩ (fun _ => true)).2.1.syncCommands = [] ∧
    "Uploading state to S3..." ∈
      (handler (moduleInit envBucket) ⟨none, none⟩ (fun _ => true)).2.1.logs ∧
    (handler (moduleInit envBucket) ⟨none, none⟩ (fun _ => true)).2.2 =
      .ok ⟨200, "DBT build completed"⟩ := by
  refine ⟨rfl, ?_, rfl⟩
  decide

/-- C2 counterexample: on a failing tool run the handler raises instead
of returning, so the invocation result is not a returned value carrying
status 500: the claim that the returned result carries 500 on failure
is false at this input. -/
theorem c2_failing_run_returns_no_result :
    (handler (moduleInit envNone) ⟨none, none⟩ (fun _ => false)).2.2 =
      .error "DBT build failed" := rfl

/-- C2 amended: the handler returns a result only when the tool run
succeeds, and that result carries status code 200 with the body
message; on failure it raises `DBT build failed` and returns nothing,
so no result with status 500 is ever produced. -/
theorem c2_result_200_on_success_raise_on_failure (st : ModuleState) (ev : Event)
    (invoke : List String → Bool) :
    (handler st ev invoke).2.2 =
      if invoke (argsOf st ev) then Except.ok ⟨200, "DBT build completed"⟩
      else Except.error "DBT build failed" := by
  by_cases h : invoke (argsOf st ev) <;>
    simp [handler, argsOf, h] at * <;> simp [h]

/-- C3: given a failing tool run, the handler attempts no persist
transfer and signals the failure to its caller by raising. -/
theorem c3_failure_raises_and_skips_persist (st : ModuleState) (ev : Event)
    (invoke : List String → Bool) (h : invoke (argsOf st ev) = false) :
    (handler st ev invoke).2.1.syncCommands = [] ∧
    (handler st ev invoke).2.2 = .error "DBT build failed" := by
  simp only [argsOf, List.append_assoc] at h
  simp [handler, h]

/-- C3 witness: a concrete failing run. -/
theorem c3_failure_witness :
    (handler (moduleInit envBucket) ⟨none, none⟩ (fun _ => false)).2.1.syncCommands = [] ∧
    (handler (moduleInit envBucket) ⟨none, none⟩ (fun _ => false)).2.2 =
      .error "DBT build failed" :=
  c3_failure_raises_and_skips_persist (moduleInit envBucket) ⟨none, none⟩ (fun _ => false) rfl

/-- C4: for the four shimmed primitives, construction ignores the
inter-process parameters and never fails; scoped acquisition from a
freshly constructed primitive completes (enter returns `True`, exit
returns normally); nested acquisition succeeds for the reentrant kind
and unwinds back to the initial state; and the reentrant ownership
check reports true unconditionally. -/
theorem c4_mock_primitives_safe (a b : List String) (v : Nat) :
    (MockRLock.new a = MockRLock.new b ∧
     MockLock.new a = MockLock.new b ∧
     MockSemaphore.new v a = MockSemaphore.new v b ∧
     MockBoundedSemaphore.new v a = MockBoundedSemaphore.new v b) ∧
    ((MockRLock.new a).acquire.2 = true ∧
     (MockRLock.new a).acquire.1.release = some (MockRLock.new a) ∧
     (MockLock.new a).acquire = some (⟨true⟩, true) ∧
     MockLock.release ⟨true⟩ = some (MockLock.new a) ∧
     (MockSemaphore.new 1 a).acquire = some (⟨0⟩, true) ∧
     MockSemaphore.release ⟨0⟩ = MockSemaphore.new 1 a ∧
     (MockBoundedSemaphore.new 1 a).acquire = some (⟨0, 1⟩, true) ∧
     MockBoundedSemaphore.release ⟨0, 1⟩ = some (MockBoundedSemaphore.new 1 a)) ∧
    ((MockRLock.new a).acquire.1.acquire.2 = true ∧
     ((MockRLock.new a).acquire.1.acquire.1.release.bind MockRLock.release) =
       some (MockRLock.new a)) ∧
    (∀ l : MockRLock, l.is_owned = true) :=
  ⟨⟨rfl, rfl, rfl, rfl⟩,
   ⟨rfl, rfl, rfl, rfl, rfl, rfl, rfl, rfl⟩,
   ⟨rfl, rfl⟩,
   fun _ => rfl⟩

/-- C5: for every environment and every transfer outcome, including a
raised exception from the transfer mechanism, both the restore
operation and the persist operation return normally: no exception
propagates out of `restore_target_from_s3` or `sync_target_to_s3`. -/
theorem c5_restore_and_sync_never_raise (env : Env) (run : Sub) :
    (restore_target_from_s3 env run).isOk = true ∧
    (sync_target_to_s3 env run).isOk = true := by
  constructor
  · simp only [restore_target_from_s3]
    split
    · rfl
    · split
      · split <;> rfl
      · rfl
  · simp only [sync_target_to_s3]
    split
    · rfl
    · split
      · split <;> rfl
      · rfl

/-- C6: when `DBT_STATE_BUCKET` is unset, restore and persist each
return normally without attempting any transfer command, logging a
single informational message for restore and a single warning for
persist. -/
theorem c6_no_bucket_noop (env : Env) (run : Sub)
    (h : env "DBT_STATE_BUCKET" = none) :
    restore_target_from_s3 env run =
      .ok ⟨[], ["INFO: DBT_STATE_BUCKET not set. Starting with clean state."]⟩ ∧
    sync_target_to_s3 env run =
      .ok ⟨[], ["WARNING: DBT_STATE_BUCKET not set. Skipping state sync."]⟩ := by
  constructor <;> simp [restore_target_from_s3, sync_target_to_s3, h, pyTruthy]

/-- C6 witness: the empty environment with the all-zero subprocess
oracle. -/
theorem c6_no_bucket_witness :
    restore_target_from_s3 envNone runZero =
      .ok ⟨[], ["INFO: DBT_STATE_BUCKET not set. Starting with clean state."]⟩ ∧
    sync_target_to_s3 envNone runZero =
      .ok ⟨[], ["WARNING: DBT_STATE_BUCKET not set. Skipping state sync."]⟩ :=
  c6_no_bucket_noop envNone runZero rfl

/-- C7 counterexample: an event whose `command` key is explicitly bound
to the empty list bypasses the default, so the command token sequence
is empty and the argument list handed to the tool begins with the fixed
flag `--target` rather than a command token. -/
theorem c7_explicit_empty_command_counterexample :
    commandOf ⟨some [], none⟩ = [] ∧
    (argsOf (moduleInit envNone) ⟨some [], none⟩).head? = some "--target" :=
  ⟨rfl, rfl⟩

/-- C7 amended: the default command is applied exactly when the event
lacks the `command` key; in that case the command token sequence is the
non-empty `[build]` and the argument list handed to the tool begins
with the command token `build`.  An event that explicitly supplies an
empty command list yields an empty command token sequence. -/
theorem c7_default_command_when_absent (st : ModuleState) (ev : Event)
    (h : ev.command = none) :
    commandOf ev = ["build"] ∧ (argsOf st ev).head? = some "build" := by
  simp [commandOf, argsOf, h]

/-- C7 witness: the empty event. -/
theorem c7_default_command_witness :
    commandOf ⟨none, none⟩ = ["build"] ∧
    (argsOf (moduleInit envNone) ⟨none, none⟩).head? = some "build" :=
  c7_default_command_when_absent (moduleInit envNone) ⟨none, none⟩ rfl

/-- C8: the empty event gets the default command `[build]` and default
cli args `[--select, +my_second_dbt_model]`; the event with command
`[run]` and cli args `[--select, model_x]` under an environment with no
bucket invokes the tool with `run`, the fixed arguments and the cli
args, attempts no transfer, and on tool success returns exactly the
result with status 200 and body `DBT build completed`. -/
theorem c8_default_and_explicit_scenarios :
    commandOf ⟨none, none⟩ = ["build"] ∧
    cliArgsOf ⟨none, none⟩ = ["--select", "+my_second_dbt_model"] ∧
    (handler (moduleInit envNone) ⟨some ["run"], some ["--select", "model_x"]⟩
        (fun _ => true)).2.1.invokeArgs =
      [["run", "--target", "dev", "--log-path", "/tmp/logs", "--target-path",
        "/tmp/target", "--target", "dev", "--profiles-dir", ".",
        "--select", "model_x"]] ∧
    (handler (moduleInit envNone) ⟨some ["run"], some ["--select", "model_x"]⟩
        (fun _ => true)).2.1.syncCommands = [] ∧
    (handler (moduleInit envNone) ⟨some ["run"], some ["--select", "model_x"]⟩
        (fun _ => true)).2.2 = .ok ⟨200, "DBT build completed"⟩ :=
  ⟨rfl, rfl, rfl, rfl, rfl⟩

/-- C9: in the fixed argument list appended to every invocation, the
log path value is `/tmp/logs` and the output path value is
`/tmp/target`, both under the writable `/tmp` sandbox; the profile
directory value is the fixed `.`; and the environment-variable-driven
target selector occupies a later position (index 7) than the hardcoded
literal `dev` (index 1), so the override wins under last-flag-wins
semantics. -/
theorem c9_fixed_args_pinned (env : Env) :
    ((default_args env).getD 2 "" = "--log-path" ∧
     (default_args env).getD 3 "" = "/tmp/logs" ∧
     "/tmp/" ++ "logs" = "/tmp/logs") ∧
    ((default_args env).getD 4 "" = "--target-path" ∧
     (default_args env).getD 5 "" = "/tmp/target" ∧
     "/tmp/" ++ "target" = "/tmp/target") ∧
    ((default_args env).getD 8 "" = "--profiles-dir" ∧
     (default_args env).getD 9 "" = ".") ∧
    ((default_args env).getD 0 "" = "--target" ∧
     (default_args env).getD 1 "" = "dev" ∧
     (default_args env).getD 6 "" = "--target" ∧
     (default_args env).getD 7 "" = getenv env "ENVIRONMENT" "dev" ∧
     (1 : Nat) < 7) :=
  ⟨⟨rfl, rfl, rfl⟩, ⟨rfl, rfl, rfl⟩, ⟨rfl, rfl⟩,
   ⟨rfl, rfl, rfl, rfl, by decide⟩⟩

/-- C10: the handler leaves the module state (process environment and
`default_args`) unchanged, and the argument list passed to the tool is
the fresh concatenation of the command, the fixed arguments and the cli
args, so a second consecutive invocation with an equal event passes an
identical argument list. -/
theorem c10_handler_no_mutation (st : ModuleState) (ev : Event)
    (invoke : List String → Bool) :
    (handler st ev invoke).1 = st ∧
    (handler st ev invoke).2.1.invokeArgs = [argsOf st ev] ∧
    (handler ((handler st ev invoke).1) ev invoke).2.1.invokeArgs =
      (handler st ev invoke).2.1.invokeArgs := by
  have h1 : (handler st ev invoke).1 = st := by
    simp only [handler]
    split <;> rfl
  have h2 : (handler st ev invoke).2.1.invokeArgs = [argsOf st ev] := by
    simp only [handler, argsOf]
    split <;> simp
  exact ⟨h1, h2, by rw [h1]⟩

end DbtLambda
